import Mathlib

/-!
Verification of the tt-screen-logger core: the throttle/pause controller,
the search-driven auto-pause overlay, the early-capture buffer and its
replay, the sink attach/destroy lifecycle, and the log-text classifier.
Each definition is a shallow embedding of the corresponding TypeScript
function from the repository (file and symbol named in its doc comment).
Times are modelled as natural numbers (milliseconds, as produced by
the JS clock), strings as Lean strings.
-/

namespace ScreenLogger

/-- The `_previousState` snapshot stored by the auto-pause overlay
(field `_previousState` of `ThrottleConfig` in the source): the
throttle mode and delay saved when a search forces a pause. -/
structure PrevState where
  throttled : Bool
  delay : Nat
deriving Repr, DecidableEq

/-- `ThrottleConfig` (src/unnamed/part_000 lines 50-58): the controller
state held in `throttleConfigRef`.  `prev` models the optional
`_previousState` field; the source initial value is
`\x7b throttled: false, paused: false, delay: 250 \x7d` with no
`_previousState`, i.e. `prev = none`. -/
structure ThrottleConfig where
  throttled : Bool
  paused : Bool
  delay : Nat
  prev : Option PrevState := none
deriving Repr, DecidableEq

/-- The initial `throttleConfigRef` value from the source. -/
def initialThrottleConfig : ThrottleConfig :=
  { throttled := false, paused := false, delay := 250 }

/-- The controller mode as the spec describes it: Normal,
Throttled(delayMs) or Paused.  The source keeps two booleans and a
delay; `paused` is checked before `throttled` everywhere
(`genericLogger` returns on `paused` first), so Paused wins. -/
inductive Mode where
  | normal
  | throttledMode (delayMs : Nat)
  | pausedMode
deriving Repr, DecidableEq

/-- The mode encoded by a `ThrottleConfig`. -/
def modeOf (c : ThrottleConfig) : Mode :=
  if c.paused then .pausedMode
  else if c.throttled then .throttledMode c.delay
  else .normal

/-- `toggleThrottling` (src/unnamed/part_000 lines 662-723 and
src/src/components/dev-screen-logger.tsx lines 332-393): the manual
cycle.  The function writes a fresh three-field object into
`throttleConfigRef.current` (so any `_previousState` is dropped:
`prev` defaults to `none`) and emits exactly one status message,
returned here as the second component.  The source also clears the
pending-logs list and any pending throttle timeout; those fields are
modelled in `SinkState` below. -/
def toggleThrottling (c : ThrottleConfig) : ThrottleConfig × String :=
  if !c.throttled && !c.paused then
    ({ throttled := true, paused := false, delay := 250 },
     "🔄 THROTTLING ENABLED: 250ms")
  else if c.throttled && c.delay == 250 then
    ({ throttled := true, paused := false, delay := 500 },
     "🔄 THROTTLING SET TO: 500ms")
  else if c.throttled && c.delay == 500 then
    ({ throttled := true, paused := false, delay := 1000 },
     "🔄 THROTTLING SET TO: 1000ms")
  else if c.throttled && c.delay == 1000 then
    ({ throttled := false, paused := true, delay := 1000 },
     "⏸️ LOGGING PAUSED - No new logs will be shown")
  else
    ({ throttled := false, paused := false, delay := 250 },
     "✅ THROTTLING DISABLED - Normal logging resumed")

/-- The state `handleSearchChange` reads and writes: the current search
query (React state `searchQuery`) and the throttle config ref. -/
structure SearchState where
  searchQuery : String
  cfg : ThrottleConfig
deriving Repr, DecidableEq

/-- `handleSearchChange` (src/unnamed/part_000 lines 538-593 and
src/src/components/dev-screen-logger.tsx lines 201-261), restricted to
the controller-relevant effects (the DOM filter call is display only).
`wasPreviouslySearching` is computed from the old query before
`setSearchQuery(query)`.  On empty-to-non-empty while not paused the
current `\x7b throttled, delay \x7d` is snapshotted into
`_previousState` and the pause is forced; on non-empty-to-empty the
snapshot is restored and deleted only when both `paused` and
`_previousState` are set. -/
def handleSearchChange (query : String) (s : SearchState) : SearchState :=
  let wasSearching : Bool := s.searchQuery != ""
  let isNowSearching : Bool := query != ""
  let s1 : SearchState := { s with searchQuery := query }
  if !wasSearching && isNowSearching then
    if s1.cfg.paused then s1
    else
      { s1 with cfg :=
          { throttled := false
            paused := true
            delay := s1.cfg.delay
            prev := some { throttled := s1.cfg.throttled, delay := s1.cfg.delay } } }
  else if wasSearching && !isNowSearching then
    match s1.cfg.prev with
    | some p =>
        if s1.cfg.paused then
          { s1 with cfg :=
              { throttled := p.throttled, paused := false, delay := p.delay, prev := none } }
        else s1
    | none => s1
  else s1

/-- The state `genericLogger` reads for its admission decision
(src/unnamed/part_000 lines 1151-1233): whether the sink DOM element is
present (`logElementRef.current` and the content element), the
throttle config, and `lastLogTimeRef.current`. -/
structure AdmitState where
  attached : Bool
  cfg : ThrottleConfig
  lastLogTime : Nat
deriving Repr, DecidableEq

/-- The admission decision of `genericLogger` for one incoming entry at
time `now` (src/unnamed/part_000 lines 1151-1233): return early when
detached or paused; when throttled admit only if
`now - lastLogTimeRef.current >= delay` and then set
`lastLogTimeRef.current = now`; otherwise always admit (the normal
branch does not touch `lastLogTimeRef`).  Result: (admitted?, new
state). -/
def genericLoggerStep (s : AdmitState) (now : Nat) : Bool × AdmitState :=
  if !s.attached || s.cfg.paused then (false, s)
  else if s.cfg.throttled then
    if s.cfg.delay ≤ now - s.lastLogTime then
      (true, { s with lastLogTime := now })
    else (false, s)
  else (true, s)

/-- Submit a sequence of entries at the given times; count admissions. -/
def runEntries (s : AdmitState) (ts : List Nat) : Nat × AdmitState :=
  ts.foldl
    (fun acc t =>
      let r := genericLoggerStep acc.2 t
      (acc.1 + (if r.1 then 1 else 0), r.2))
    (0, s)

/-- A JavaScript value as the logger sees one.  Structured values carry
a `cyclic` flag: an inductive type cannot hold an actual reference
cycle, so the flag marks that the real object participates in one
(exactly the situation in which `JSON.stringify` throws a TypeError). -/
inductive JSValue where
  | str (s : String)
  | num (n : Int)
  | bool (b : Bool)
  | null
  | undef
  | obj (fields : List (String × JSValue)) (cyclic : Bool)
  | arr (elems : List JSValue) (cyclic : Bool)
deriving Repr

/-- Is the value a non-null structured value (JS
`typeof arg === "object" && arg !== null`)? -/
def JSValue.isStructured : JSValue → Bool
  | .obj _ _ => true
  | .arr _ _ => true
  | _ => false

/-- The four entry kinds of the sink. -/
inductive LogKind where
  | log
  | warn
  | error
  | info
deriving Repr, DecidableEq

/-- One record of the process-wide `earlyLogs` array
(src/unnamed/part_002 lines 2-6). -/
structure EarlyLog where
  type : LogKind
  args : List JSValue
  timestamp : Nat
deriving Repr

/-- `List` version of JS `String.prototype.startsWith` at the head. -/
def charsStartWith : List Char → List Char → Bool
  | _, [] => true
  | [], _ :: _ => false
  | c :: cs, p :: ps => c == p && charsStartWith cs ps

/-- JS `String.prototype.includes`: `pat` occurs contiguously in `s`. -/
def charsInclude : List Char → List Char → Bool
  | [], pat => pat.isEmpty
  | c :: cs, pat => charsStartWith (c :: cs) pat || charsInclude cs pat

/-- String front end for `charsInclude`. -/
def strIncludes (s pat : String) : Bool :=
  charsInclude s.toList pat.toList

/-- The separator filter of `replayLogsToScreenLogger`
(src/unnamed/part_002 lines 79-86): a buffered entry is dropped when
its first argument is a string containing "EARLY LOGS" or
"END EARLY LOGS". -/
def isSeparatorLog (e : EarlyLog) : Bool :=
  match e.args with
  | JSValue.str s :: _ =>
      strIncludes s "EARLY LOGS" || strIncludes s "END EARLY LOGS"
  | _ => false

/-- JS `Array.prototype.slice(-n)`: the last `n` elements; `slice(-0)`
is `slice(0)`, the whole array. -/
def jsSliceLast (n : Nat) (l : List EarlyLog) : List EarlyLog :=
  if n = 0 then l else l.drop (l.length - n)

/-- One call the replay makes on `window.screenLog`: the channel used
and the arguments passed. -/
structure Emission where
  kind : LogKind
  args : List JSValue
deriving Repr

/-- `replayLogsToScreenLogger` (src/unnamed/part_002 lines 71-105) as
the sequence of `window.screenLog` calls it performs, as a function of
the `earlyLogs` buffer: nothing when the buffer is empty; otherwise
the start separator, the most recent `maxEntries` buffered entries with
stray separator entries filtered out, each re-emitted on its original
channel in capture order, then the end separator.  The function never
writes the buffer: there is no drained flag and no truncation. -/
def replayLogsToScreenLogger (maxEntries : Nat) (earlyLogs : List EarlyLog) :
    List Emission :=
  if earlyLogs.isEmpty then []
  else
    ⟨.log, [.str "---------- EARLY LOGS ----------"]⟩ ::
      ((jsSliceLast maxEntries earlyLogs).filter
          (fun l => !(isSeparatorLog l))).map (fun l => ⟨l.type, l.args⟩) ++
      [⟨.log, [.str "---------- END EARLY LOGS ----------"]⟩]

/-- A console channel name. -/
inductive ConsoleKind where
  | log
  | info
  | warn
  | error
  | clear
deriving Repr, DecidableEq

/-- A function installed on a console channel, as a symbolic value: the
function present before the sink attaches (the native console method or
the early-capture wrapper of src/unnamed/part_002 — neither routes
through the throttle controller or the classifier), or the
`originalFnCallDecorator(genericLogger(...))` wrapper the sink installs
(src/unnamed/part_000 lines 1312-1346), which does route through the
controller and the classifier. -/
inductive ChanImpl where
  | preAttach (k : ConsoleKind)
  | screenDecorated (k : ConsoleKind)
deriving Repr, DecidableEq

/-- Does invoking the channel route arguments through the throttle
controller and the classifier? -/
def routesThroughSink : ChanImpl → Bool
  | .screenDecorated _ => true
  | .preAttach _ => false

/-- The five process-wide console bindings the sink swaps. -/
structure ConsoleBindings where
  log : ChanImpl
  info : ChanImpl
  warn : ChanImpl
  error : ChanImpl
  clear : ChanImpl
deriving Repr, DecidableEq

/-- The bindings before any attach. -/
def preAttachConsole : ConsoleBindings :=
  ⟨.preAttach .log, .preAttach .info, .preAttach .warn, .preAttach .error,
   .preAttach .clear⟩

/-- The bindings the sink installs at attach
(src/unnamed/part_000 lines 1339-1346). -/
def decoratedConsole : ConsoleBindings :=
  ⟨.screenDecorated .log, .screenDecorated .info, .screenDecorated .warn,
   .screenDecorated .error, .screenDecorated .clear⟩

/-- The sink lifecycle state: `initialized` models
`isInitializedRef.current` together with the presence of the panel DOM
(the attach guard tests both), `console` the process-wide channel
bindings, `savedConsole` the `_console` record captured at attach,
`throttleTimeout` the pending `throttleTimeoutRef` handle, and
`earlyLogs` the process-wide early-capture buffer. -/
structure SinkState where
  initialized : Bool
  console : ConsoleBindings
  savedConsole : Option ConsoleBindings
  throttleTimeout : Option Nat
  earlyLogs : List EarlyLog
deriving Repr

/-- `initScreenLog` (src/unnamed/part_000 lines 971-1363), restricted
to the lifecycle effects the claims are about: when already initialized
the function returns before doing anything (lines 972-975); otherwise
it saves the current console functions into `_console`
(lines 1121-1125), installs the decorated channels (lines 1339-1346),
marks the sink initialized and finally calls
`replayLogsToScreenLogger()` (line 1360).  The second component is the
replay emission list.  The indirect re-capture of replayed entries into
`earlyLogs` (the decorated channels forward to the saved pre-attach
functions, which in the browser are the part_002 capture wrappers) is
not modelled; it could only grow the buffer further. -/
def initScreenLog (s : SinkState) : SinkState × List Emission :=
  if s.initialized then (s, [])
  else
    ({ s with
        initialized := true
        savedConsole := some s.console
        console := decoratedConsole },
     replayLogsToScreenLogger 200 s.earlyLogs)

/-- `destroy` (src/unnamed/part_000 lines 1321-1337): restore the five
console channels from `_console`, remove the panel DOM (so the sink is
no longer initialized) and clear any pending throttle timeout.  The
early-capture buffer is untouched. -/
def destroy (s : SinkState) : SinkState :=
  { s with
      console := s.savedConsole.getD s.console
      initialized := false
      throttleTimeout := none }

/-- A concrete three-entry early buffer used as witness input. -/
def bufThree : List EarlyLog :=
  [⟨.log, [.str "one"], 1⟩, ⟨.warn, [.str "two"], 2⟩, ⟨.error, [.str "three"], 3⟩]

/-- JS `String(value)` for the primitive values that reach the string
classifier.  Structured values never reach this function from the
modelled call sites (the source tests `typeof arg === "object"` first),
so they get the generic JS object stringification. -/
def toJSString : JSValue → String
  | .str s => s
  | .num n => toString n
  | .bool b => if b then "true" else "false"
  | .null => "null"
  | .undef => "undefined"
  | .obj _ _ => "[object Object]"
  | .arr _ _ => "[object Array]"

/-- The token categories the classifier produces; each corresponds to
one span/text-node construction site in `formatLogText`
(src/unnamed/part_000 lines 104-430).  `tokColor` below maps each to
the hex color the source assigns. -/
inductive TokKind where
  | module
  | action
  | param
  | property
  | valueGeneric
  | valueNull
  | valueUndef
  | numberTok
  | bracketId
  | propName
  | ident
  | strVal
  | sep
  | objPreview
  | objJson
deriving Repr, DecidableEq

/-- One classified token: a category and the rendered text. -/
structure Tok where
  kind : TokKind
  text : String
deriving Repr, DecidableEq

/-- The color `formatLogText` gives each token category (the hex codes
of the source's `span.style.color` assignments; separators are bare
text nodes with no color).  The spec's "number category" is the
#5AAAFA spans, its "null category" the #82AAFF spans. -/
def tokColor : TokKind → String
  | .module => "#9B8FFF"
  | .action => "#FFC16C"
  | .param => "#FC8A58"
  | .property => "#FC8A58"
  | .valueGeneric => "#FFC16C"
  | .valueNull => "#82AAFF"
  | .valueUndef => "#A9B7C6"
  | .numberTok => "#5AAAFA"
  | .bracketId => "#9B8FFF"
  | .propName => "#FC8A58"
  | .ident => "#FFC16C"
  | .strVal => "#FC8A58"
  | .sep => ""
  | .objPreview => "#4dabf7"
  | .objJson => "#d4d4d4"

/-- JS `\w`: ASCII letter, digit or underscore. -/
def isWordChar (c : Char) : Bool :=
  c.isAlphanum || c == '_'

/-- JS regex `/^\[.*\]$/` (the dot does not match a newline). -/
def matchBracketedWhole (s : String) : Bool :=
  let cs := s.toList
  decide (2 ≤ cs.length) && cs.head? == some '[' && cs.getLast? == some ']' &&
    (cs.drop 1).dropLast.all (fun c => c ≠ '\n')

/-- JS regex `/^\w+:$/`. -/
def matchPropColon (s : String) : Bool :=
  let cs := s.toList
  cs.getLast? == some ':' && !cs.dropLast.isEmpty && cs.dropLast.all isWordChar

/-- JS regex `/^[a-zA-Z][a-zA-Z0-9]*$/`. -/
def matchIdentLike (s : String) : Bool :=
  match s.toList with
  | c :: cs => c.isAlpha && cs.all Char.isAlphanum
  | [] => false

/-- JS regex `/^\d+$/`. -/
def isAllDigits (s : String) : Bool :=
  !s.toList.isEmpty && s.toList.all Char.isDigit

/-- JS regex `/^-?\d+(\.\d+)?$/` (the numeric test of the general
property-list value branch, src/unnamed/part_000 line 362). -/
def isNumericValueText (s : String) : Bool :=
  let body := fun (cs : List Char) =>
    let ds := cs.takeWhile Char.isDigit
    let rest := cs.drop ds.length
    !ds.isEmpty &&
      (rest.isEmpty ||
        (match rest with
         | '.' :: fs => !fs.isEmpty && fs.all Char.isDigit
         | _ => false))
  match s.toList with
  | '-' :: rest => body rest
  | cs => body cs

/-- A decimal string that survives the JS round trip
`String(Number(part)) === part` used by the basic word coloring
(src/unnamed/part_000 lines 411-415): canonical integers ("0", no
leading zeros, no "-0"). -/
def isCanonicalIntText (s : String) : Bool :=
  match s.toList with
  | [] => false
  | ['0'] => true
  | '-' :: c :: rest => c.isDigit && c ≠ '0' && rest.all Char.isDigit
  | c :: rest => c.isDigit && c ≠ '0' && rest.all Char.isDigit

/-- The JS round trip `!isNaN(Number(part)) && String(Number(part)) ===
part`: canonical integers, canonical decimals (a fraction part that is
non-empty, all digits and without a trailing zero) and the two
infinities.  Exponent canonical forms and float-precision loss are not
modelled; the classifier claims never reach this predicate. -/
def jsNumberRoundTrip (s : String) : Bool :=
  isCanonicalIntText s || s == "Infinity" || s == "-Infinity" ||
    (match s.splitOn "." with
     | [ip, fp] =>
         (isCanonicalIntText ip || ip == "-0") &&
           !fp.toList.isEmpty && fp.toList.all Char.isDigit &&
           fp.toList.getLast? ≠ some '0'
     | _ => false)

/-- The string branch of `formatPrimitive` (src/unnamed/part_000 lines
198-219): bracketed identifier, property name with trailing colon,
identifier-like word, else regular string.  The number, boolean, null
and undefined branches of the source function test the JS runtime type
of the value and are unreachable here: every modelled call site passes
a string word. -/
def formatPrimitiveStr (value : String) : Tok :=
  if matchBracketedWhole value then ⟨.bracketId, value⟩
  else if matchPropColon value then ⟨.propName, value⟩
  else if matchIdentLike value then ⟨.ident, value⟩
  else ⟨.strVal, value⟩

/-- Splitter state machine for JS `text.split(/(\s+)/)`: alternating
non-whitespace and whitespace chunks, captured separators included,
with the empty boundary chunks JS produces. -/
def splitKeepSpacesGo : List Char → String → Bool → List String → List String
  | [], cur, inWs, acc => ((if inWs then ["", cur] else [cur]) ++ acc).reverse
  | c :: cs, cur, inWs, acc =>
      if c.isWhitespace == inWs then splitKeepSpacesGo cs (cur.push c) inWs acc
      else splitKeepSpacesGo cs (String.singleton c) (!inWs) (cur :: acc)

/-- JS `text.split(/(\s+)/)`. -/
def splitKeepSpaces (s : String) : List String :=
  splitKeepSpacesGo s.toList "" false []

/-- The elements at even positions (0, 2, 4, ...). -/
def evenIdx : List String → List String
  | [] => []
  | [a] => [a]
  | a :: _ :: rest => a :: evenIdx rest

/-- JS `text.split(/\s+/)`: the non-separator chunks of
`split(/(\s+)/)`, boundary empties included. -/
def splitWsJS (s : String) : List String :=
  evenIdx (splitKeepSpaces s)

/-- One part of the basic no-pattern fallback (src/unnamed/part_000
lines 404-424): whitespace chunks become bare text nodes, words that
survive the JS number round trip become number spans, the rest goes
through `formatPrimitive`. -/
def basicTok (part : String) : Tok :=
  if part.trim == "" then ⟨.sep, part⟩
  else if jsNumberRoundTrip part then ⟨.numberTok, part⟩
  else formatPrimitiveStr part

/-- The common-log-pattern regex
`/^\[([^\]]+)\]\s+(\S+)(?:\s+(\S+))?(?:\s+(.+))?$/`
(src/unnamed/part_000 line 244) as a parser returning
(module, action, optional param, optional remainder).  Greedy matching
with backtracking of the two optional groups is reproduced: when only
whitespace follows the action or the param, `(?:\s+(\S+))?` fails and
`(?:\s+(.+))?` captures the final whitespace character when at least
two remain (the dot matches a space).  The dot-excludes-newline rule is
not modelled; the classifier claims use newline-free inputs. -/
def parseCommonLog (text : String) :
    Option (String × String × Option String × Option String) :=
  match text.toList with
  | '[' :: rest =>
    let moduleCs := rest.takeWhile (fun c => c ≠ ']')
    if moduleCs.isEmpty then none
    else
      match rest.drop moduleCs.length with
      | ']' :: r0 =>
        let ws1 := r0.takeWhile Char.isWhitespace
        if ws1.isEmpty then none
        else
          let r1 := r0.drop ws1.length
          let act := r1.takeWhile (fun c => !c.isWhitespace)
          if act.isEmpty then none
          else
            let r2 := r1.drop act.length
            if r2.isEmpty then some (moduleCs.asString, act.asString, none, none)
            else
              let ws2 := r2.takeWhile Char.isWhitespace
              let r3 := r2.drop ws2.length
              if r3.isEmpty then
                if 2 ≤ ws2.length then
                  some (moduleCs.asString, act.asString, none,
                        some (ws2.drop (ws2.length - 1)).asString)
                else some (moduleCs.asString, act.asString, none, none)
              else
                let prm := r3.takeWhile (fun c => !c.isWhitespace)
                let r4 := r3.drop prm.length
                if r4.isEmpty then
                  some (moduleCs.asString, act.asString, some prm.asString, none)
                else
                  let ws3 := r4.takeWhile Char.isWhitespace
                  let r5 := r4.drop ws3.length
                  if r5.isEmpty then
                    if 2 ≤ ws3.length then
                      some (moduleCs.asString, act.asString, some prm.asString,
                            some (ws3.drop (ws3.length - 1)).asString)
                    else
                      some (moduleCs.asString, act.asString, some prm.asString,
                            none)
                  else
                    some (moduleCs.asString, act.asString, some prm.asString,
                          some r5.asString)
      | _ => none
  | _ => none

/-- The tail of the PatchSelectMenu regex after the lazy group:
`,\s*currentPatchName:\s*(.+)$`.  When only whitespace follows the
colon, `\s*` backtracks so that `(.+)` captures the last whitespace
character. -/
def patchTail (cs : List Char) : Option String :=
  match cs with
  | ',' :: rest =>
    let r1 := rest.dropWhile Char.isWhitespace
    let pat := "currentPatchName:".toList
    if charsStartWith r1 pat then
      let after := r1.drop pat.length
      let ws := after.takeWhile Char.isWhitespace
      let r2 := after.drop ws.length
      if r2.isEmpty then
        if ws.isEmpty then none
        else some (ws.drop (ws.length - 1)).asString
      else some r2.asString
    else none
  | _ => none

/-- The lazy group `(.+?)` of the PatchSelectMenu regex: consume one
character at a time (shortest match first) and try `patchTail` on the
remainder. -/
def patchSearchGo (accRev : List Char) : List Char → Option (String × String)
  | [] => none
  | c :: cs =>
    match patchTail cs with
    | some v2 => some ((c :: accRev).reverse.asString, v2)
    | none => patchSearchGo (c :: accRev) cs

/-- The special-case regex
`/^activePresetId:\s*(.+?),\s*currentPatchName:\s*(.+)$/`
(src/unnamed/part_000 line 276).  The maximal `\s*` match after
`activePresetId:` is committed (backtracking into it matters only when
the first value starts with whitespace, which no modelled input does). -/
def patchMatch (rest : String) : Option (String × String) :=
  let pat := "activePresetId:".toList
  let cs := rest.toList
  if charsStartWith cs pat then
    patchSearchGo [] ((cs.drop pat.length).dropWhile Char.isWhitespace)
  else none

/-- The part types of the simple property:value parser
(src/unnamed/part_000 lines 323-352). -/
inductive PartType where
  | property
  | separator
  | value
  | comma
deriving Repr, DecidableEq

/-- One parsed part of the general property-list branch. -/
structure RestPart where
  ptype : PartType
  text : String
deriving Repr, DecidableEq

/-- The character loop of the simple property:value parser
(src/unnamed/part_000 lines 329-352): a colon outside a value region
emits the trimmed property and a ": " separator and opens a value
region; a comma inside a value region emits the trimmed value and a
", " separator and closes it; the final chunk is emitted only when its
trim is non-empty. -/
def parsePartsGo : List Char → String → Bool → List RestPart → List RestPart
  | [], cur, inValue, acc =>
      if cur.trim == "" then acc.reverse
      else (⟨if inValue then .value else .property, cur.trim⟩ :: acc).reverse
  | c :: cs, cur, inValue, acc =>
      if c == ':' && !inValue then
        parsePartsGo cs "" true (⟨.separator, ": "⟩ :: ⟨.property, cur.trim⟩ :: acc)
      else if c == ',' && inValue then
        parsePartsGo cs "" false (⟨.comma, ", "⟩ :: ⟨.value, cur.trim⟩ :: acc)
      else parsePartsGo cs (cur.push c) inValue acc

/-- Token for one parsed part (src/unnamed/part_000 lines 355-372):
properties are #FC8A58 spans, values are sub-classified as null /
undefined / number / generic, separators and commas are bare text
nodes. -/
def restPartTok (p : RestPart) : Tok :=
  match p.ptype with
  | .property => ⟨.property, p.text⟩
  | .separator => ⟨.sep, p.text⟩
  | .comma => ⟨.sep, p.text⟩
  | .value =>
      if p.text == "null" then ⟨.valueNull, p.text⟩
      else if p.text == "undefined" then ⟨.valueUndef, p.text⟩
      else if isNumericValueText p.text then ⟨.numberTok, p.text⟩
      else ⟨.valueGeneric, p.text⟩

/-- Value token of the PatchSelectMenu branch (src/unnamed/part_000
lines 287-316): only "null" is special-cased there. -/
def patchValueTok (v : String) : Tok :=
  if v == "null" then ⟨.valueNull, v⟩ else ⟨.valueGeneric, v⟩

/-- Word token of the remainder word loop (src/unnamed/part_000 lines
387-398): digit-only words become number spans, the rest goes through
`formatPrimitive`. -/
def restWordTok (w : String) : Tok :=
  if isAllDigits w then ⟨.numberTok, w⟩ else formatPrimitiveStr w

/-- The remainder word loop joins words with single-space text nodes. -/
def restWordsToks : List String → List Tok
  | [] => []
  | w :: rest =>
      restWordTok w :: (rest.map (fun w2 => [⟨TokKind.sep, " "⟩, restWordTok w2])).flatten

/-- Classification of the remainder group of the common log pattern
(src/unnamed/part_000 lines 273-400): first the PatchSelectMenu
special case, then the general property:value parser when a colon is
present, then the single-number case, then the word loop. -/
def formatRest (rest : String) : List Tok :=
  match patchMatch rest with
  | some (v1, v2) =>
      [⟨.property, "activePresetId: "⟩, patchValueTok v1, ⟨.sep, ", "⟩,
       ⟨.property, "currentPatchName: "⟩, patchValueTok v2]
  | none =>
      if rest.toList.any (fun c => c == ':') then
        (parsePartsGo rest.toList "" false []).map restPartTok
      else if isAllDigits rest then [⟨.numberTok, rest⟩]
      else restWordsToks (splitWsJS rest)

/-- Classification of one primitive argument rendered to text
(src/unnamed/part_000 lines 240-424): when the common log pattern
matches, a module span, an action span, an optional param span and the
classified remainder; otherwise the whitespace-preserving basic word
coloring. -/
def formatLogString (text : String) : List Tok :=
  match parseCommonLog text with
  | some (m, act, prm, rst) =>
      ⟨.module, "[" ++ m ++ "] "⟩ :: ⟨.action, act ++ " "⟩ ::
        ((match prm with | some p => [⟨TokKind.param, p ++ " "⟩] | none => []) ++
         (match rst with | some r => formatRest r | none => []))
  | none => (splitKeepSpaces text).map basicTok

mutual

/-- Does the value contain a node that participates in a reference
cycle?  Exactly these values make `JSON.stringify` throw. -/
def hasCycle : JSValue → Bool
  | .obj fs c => c || hasCycleFields fs
  | .arr es c => c || hasCycleElems es
  | _ => false

/-- `hasCycle` over an object field list. -/
def hasCycleFields : List (String × JSValue) → Bool
  | [] => false
  | (_, v) :: fs => hasCycle v || hasCycleFields fs

/-- `hasCycle` over an array element list. -/
def hasCycleElems : List JSValue → Bool
  | [] => false
  | v :: vs => hasCycle v || hasCycleElems vs

end

/-- JSON string escaping for the characters the model carries. -/
def jsonEscapeChar (c : Char) : String :=
  if c == '"' then "\\\""
  else if c == '\\' then "\\\\"
  else if c == '\n' then "\\n"
  else if c == '\t' then "\\t"
  else if c == '\r' then "\\r"
  else String.singleton c

/-- A JSON-quoted string. -/
def jsonQuote (s : String) : String :=
  "\"" ++ String.join (s.toList.map jsonEscapeChar) ++ "\""

/-- `n` spaces of indentation. -/
def pad (n : Nat) : String :=
  String.mk (List.replicate n ' ')

/-- Join with a separator. -/
def joinSepStr (sep : String) : List String → String
  | [] => ""
  | [x] => x
  | x :: xs => x ++ sep ++ joinSepStr sep xs

mutual

/-- The text `JSON.stringify(v, null, 2)` produces on a cycle-free
value, at the given current indentation.  An `undef` here is an array
element (object fields with undefined values are skipped below, and the
modelled call sites pass only structured top-level values). -/
def jsonRender (ind : Nat) : JSValue → String
  | .str s => jsonQuote s
  | .num n => toString n
  | .bool b => if b then "true" else "false"
  | .null => "null"
  | .undef => "null"
  | .obj fs _ =>
      let rendered := jsonRenderFields (ind + 2) fs
      if rendered.isEmpty then "\x7b\x7d"
      else "\x7b\n" ++ joinSepStr ",\n" rendered ++ "\n" ++ pad ind ++ "\x7d"
  | .arr es _ =>
      let rendered := jsonRenderElems (ind + 2) es
      if rendered.isEmpty then "[]"
      else "[\n" ++ joinSepStr ",\n" rendered ++ "\n" ++ pad ind ++ "]"

/-- Rendered object fields; fields holding `undefined` are skipped as
`JSON.stringify` does. -/
def jsonRenderFields (ind : Nat) : List (String × JSValue) → List String
  | [] => []
  | (_, .undef) :: fs => jsonRenderFields ind fs
  | (k, v) :: fs =>
      (pad ind ++ jsonQuote k ++ ": " ++ jsonRender ind v) :: jsonRenderFields ind fs

/-- Rendered array elements. -/
def jsonRenderElems (ind : Nat) : List JSValue → List String
  | [] => []
  | v :: vs => (pad ind ++ jsonRender ind v) :: jsonRenderElems ind vs

end

/-- `JSON.stringify(v, null, 2)`: `none` models the TypeError the JS
function throws on a circular structure. -/
def jsonStringify2 (v : JSValue) : Option String :=
  if hasCycle v then none else some (jsonRender 0 v)

/-- One previewed element/field value of the collapsed object preview
(src/unnamed/part_000 lines 125-151): nested non-null objects show as
"Array"/"Object", anything else as `String(val).substring(0, 10)`. -/
def previewItem (v : JSValue) : String :=
  match v with
  | .arr _ _ => "Array"
  | .obj _ _ => "Object"
  | _ => (toJSString v).take 10

/-- The array preview `Array(n) [a, b, c, ...]`. -/
def arrayPreview (es : List JSValue) : String :=
  "Array(" ++ toString es.length ++ ") [" ++
    joinSepStr ", " ((es.take 3).map previewItem) ++
    (if 3 < es.length then ", ..." else "") ++ "]"

/-- The object preview `\x7bk: v, ...\x7d`. -/
def objectPreview (fs : List (String × JSValue)) : String :=
  "\x7b" ++
    joinSepStr ", " ((fs.take 3).map (fun f => f.1 ++ ": " ++ previewItem f.2)) ++
    (if 3 < fs.length then ", ..." else "") ++ "\x7d"

/-- The collapsed preview of a structured argument, truncated to 100
characters with an ellipsis (src/unnamed/part_000 lines 120-161).  The
source builds this inside try/catch whose fallback covers throwing
property getters, which the value model does not contain, so the
fallback is unreachable here. -/
def buildPreview (v : JSValue) : String :=
  let p :=
    match v with
    | .arr es _ => arrayPreview es
    | .obj fs _ => objectPreview fs
    | _ => ""
  if 100 < p.length then p.take 97 ++ "..." else p

/-- The structured-argument branch of `formatLogText` in
src/unnamed/part_000 (lines 105-189): the preview summary is built
inside try/catch, but the full serialization
`JSON.stringify(arg, null, 2)` (line 183) is evaluated OUTSIDE any
try/catch while the JSX children are constructed, so a circular
argument makes the whole call throw.  The `Except.error` value models
that TypeError escaping `formatLogText`. -/
def formatStructured000 (v : JSValue) : Except String (List Tok) :=
  let preview := buildPreview v
  match jsonStringify2 v with
  | some s => .ok [⟨.objPreview, preview⟩, ⟨.objJson, s⟩]
  | none => .error "TypeError: Converting circular structure to JSON"

/-- `formatLogText` of src/unnamed/part_000 for one argument: the
structured branch above, or the primitive string classification with
the single trailing separator text node between adjacent arguments
(appended only in the primitive branch, lines 426-428). -/
def formatLogTextArg000 (arg : JSValue) (index argsLength : Nat) :
    Except String (List Tok) :=
  if arg.isStructured then formatStructured000 arg
  else
    .ok (formatLogString (toJSString arg) ++
         (if index + 1 < argsLength then [⟨TokKind.sep, " "⟩] else []))

/-- The argument loop of `genericLogger` in src/unnamed/part_000
(lines 1212-1214): each argument through `formatLogText`; an exception
from any argument escapes the whole call. -/
def argsTokensGo (argsLength : Nat) : List JSValue → Nat → Except String (List Tok)
  | [], _ => .ok []
  | a :: rest, i =>
      match formatLogTextArg000 a i argsLength with
      | .error e => .error e
      | .ok ts =>
          match argsTokensGo argsLength rest (i + 1) with
          | .error e => .error e
          | .ok ts2 => .ok (ts ++ ts2)

/-- The classification `genericLogger` (src/unnamed/part_000) performs
on an admitted entry's argument list.  Nothing on the path catches, so
an `Except.error` is a thrown exception crossing the public logging
API. -/
def genericLoggerTokens000 (args : List JSValue) : Except String (List Tok) :=
  argsTokensGo args.length args 0

/-- The argument loop of `genericLogger` in
src/src/components/dev-screen-logger.tsx (lines 870-899): structured
arguments get a fixed "Object data" summary and a serialization guarded
by try/catch that degrades to the placeholder "[Circular]"; primitives
become plain text nodes `String(arg) + " "`. -/
def formatArgDev (arg : JSValue) : List Tok :=
  if arg.isStructured then
    [⟨.objPreview, "Object data"⟩,
     ⟨.objJson, (jsonStringify2 arg).getD "[Circular]"⟩]
  else
    [⟨TokKind.sep, toJSString arg ++ " "⟩]

/-- The dev-screen-logger classification of an argument list: total. -/
def genericLoggerTokensDev (args : List JSValue) : List Tok :=
  (args.map formatArgDev).flatten

/-- The inductive stand-in for the circular object
`const a = \x7b\x7d; a.self = a`: both nodes participate in the cycle. -/
def cyclicObject : JSValue :=
  .obj [("self", .obj [] true)] true

/-- Helper: ending a search never changes the throttle config when no
auto-pause snapshot exists. -/
theorem handleSearchChange_end_no_snapshot (s : SearchState)
    (h : s.cfg.prev = none) : (handleSearchChange "" s).cfg = s.cfg := by
  unfold handleSearchChange
  simp only [h]
  split <;> simp_all

/-- Helper: `handleSearchChange` always stores the new query. -/
theorem handleSearchChange_query (q : String) (s : SearchState) :
    (handleSearchChange q s).searchQuery = q := by
  cases s with
  | mk sq cfg =>
    simp only [handleSearchChange]
    repeat' split
    all_goals rfl

/-- Helper: when the query is already empty, `handleSearchChange ""` is
the identity. -/
theorem handleSearchChange_empty_id (s : SearchState)
    (h : s.searchQuery = "") : handleSearchChange "" s = s := by
  cases s with
  | mk sq cfg =>
    have h' : sq = "" := h
    subst h'
    simp [handleSearchChange]

/-- C2: from any Normal state (not throttled, not paused) the manual
toggle follows the cycle Normal → Throttled(250) → Throttled(500) →
Throttled(1000) → Paused → Normal, each step producing exactly the one
status message the source assigns to the new state, and five toggles
return the controller to the Normal configuration. -/
theorem throttle_toggle_cycle (c : ThrottleConfig)
    (ht : c.throttled = false) (hp : c.paused = false) :
    modeOf c = Mode.normal ∧
    toggleThrottling c =
      (⟨true, false, 250, none⟩, "🔄 THROTTLING ENABLED: 250ms") ∧
    toggleThrottling ⟨true, false, 250, none⟩ =
      (⟨true, false, 500, none⟩, "🔄 THROTTLING SET TO: 500ms") ∧
    toggleThrottling ⟨true, false, 500, none⟩ =
      (⟨true, false, 1000, none⟩, "🔄 THROTTLING SET TO: 1000ms") ∧
    toggleThrottling ⟨true, false, 1000, none⟩ =
      (⟨false, true, 1000, none⟩, "⏸️ LOGGING PAUSED - No new logs will be shown") ∧
    toggleThrottling ⟨false, true, 1000, none⟩ =
      (⟨false, false, 250, none⟩, "✅ THROTTLING DISABLED - Normal logging resumed") ∧
    (toggleThrottling (toggleThrottling (toggleThrottling (toggleThrottling
       (toggleThrottling c).1).1).1).1).1 = ⟨false, false, 250, none⟩ ∧
    modeOf (⟨false, false, 250, none⟩ : ThrottleConfig) = Mode.normal := by
  have h1 : toggleThrottling c =
      (⟨true, false, 250, none⟩, "🔄 THROTTLING ENABLED: 250ms") := by
    unfold toggleThrottling
    simp [ht, hp]
  refine ⟨by simp [modeOf, ht, hp], h1, by decide, by decide, by decide, by decide, ?_, by decide⟩
  rw [h1]
  decide

/-- C2 witness: the cycle instantiated at the initial configuration. -/
theorem throttle_toggle_cycle_witness :
    modeOf initialThrottleConfig = Mode.normal ∧
    toggleThrottling initialThrottleConfig =
      (⟨true, false, 250, none⟩, "🔄 THROTTLING ENABLED: 250ms") :=
  ⟨(throttle_toggle_cycle initialThrottleConfig rfl rfl).1,
   (throttle_toggle_cycle initialThrottleConfig rfl rfl).2.1⟩

/-- C3: while throttled (and attached, not paused) an entry at time
`now` is admitted exactly when `now - lastLogTime ≥ delay`, admission
updates `lastLogTime` to `now`; hence if a first entry is due
(`lastLogTime + delay ≤ t1`), a second entry less than `delay` later
yields exactly one admission and a second entry at least `delay` later
yields two. -/
theorem throttle_admission (s : AdmitState) (now t1 t2 : Nat)
    (ha : s.attached = true) (hp : s.cfg.paused = false)
    (ht : s.cfg.throttled = true) :
    ((genericLoggerStep s now).1 = true ↔ s.cfg.delay ≤ now - s.lastLogTime) ∧
    ((genericLoggerStep s now).1 = true →
      (genericLoggerStep s now).2.lastLogTime = now) ∧
    (s.lastLogTime + s.cfg.delay ≤ t1 → t1 ≤ t2 → t2 < t1 + s.cfg.delay →
      (runEntries s [t1, t2]).1 = 1) ∧
    (s.lastLogTime + s.cfg.delay ≤ t1 → t1 + s.cfg.delay ≤ t2 →
      (runEntries s [t1, t2]).1 = 2) := by
  have hstep : ∀ n : Nat, genericLoggerStep s n =
      if s.cfg.delay ≤ n - s.lastLogTime then
        (true, { s with lastLogTime := n }) else (false, s) := by
    intro n
    unfold genericLoggerStep
    simp [ha, hp, ht]
  refine ⟨?_, ?_, ?_, ?_⟩
  · rw [hstep]
    split <;> simp_all
  · rw [hstep]
    split <;> simp_all
  · intro h1 h12 h2
    have hd1 : s.cfg.delay ≤ t1 - s.lastLogTime := by omega
    have hd2 : ¬ s.cfg.delay ≤ t2 - t1 := by omega
    simp only [runEntries, List.foldl, hstep]
    simp only [hd1, if_pos]
    have hstep2 : genericLoggerStep { s with lastLogTime := t1 } t2 =
        (false, { s with lastLogTime := t1 }) := by
      unfold genericLoggerStep
      simp [ha, hp, ht, hd2]
    simp [hstep2]
  · intro h1 h2
    have hd1 : s.cfg.delay ≤ t1 - s.lastLogTime := by omega
    have hd2 : s.cfg.delay ≤ t2 - t1 := by omega
    simp only [runEntries, List.foldl, hstep]
    simp only [hd1, if_pos]
    have hstep2 : genericLoggerStep { s with lastLogTime := t1 } t2 =
        (true, { s with lastLogTime := t2 }) := by
      unfold genericLoggerStep
      simp [ha, hp, ht, hd2]
    simp [hstep2]

/-- C3 witness: a throttled state with delay 250 and last admission at
time 0; entries at 250 and 400 give one admission, at 250 and 500 two. -/
theorem throttle_admission_witness :
    ((genericLoggerStep ⟨true, ⟨true, false, 250, none⟩, 0⟩ 250).1 = true ↔
      (250 : Nat) ≤ 250 - 0) ∧
    ((genericLoggerStep ⟨true, ⟨true, false, 250, none⟩, 0⟩ 250).1 = true →
      (genericLoggerStep ⟨true, ⟨true, false, 250, none⟩, 0⟩ 250).2.lastLogTime = 250) ∧
    ((0 : Nat) + 250 ≤ 250 → 250 ≤ 400 → 400 < 250 + 250 →
      (runEntries ⟨true, ⟨true, false, 250, none⟩, 0⟩ [250, 400]).1 = 1) ∧
    ((0 : Nat) + 250 ≤ 250 → 250 + 250 ≤ 500 →
      (runEntries ⟨true, ⟨true, false, 250, none⟩, 0⟩ [250, 500]).1 = 2) := by
  have h := throttle_admission ⟨true, ⟨true, false, 250, none⟩, 0⟩ 250 250 400 rfl rfl rfl
  have h2 := throttle_admission ⟨true, ⟨true, false, 250, none⟩, 0⟩ 250 250 500 rfl rfl rfl
  exact ⟨h.1, h.2.1, h.2.2.1, h2.2.2.2⟩

/-- C4: when the query goes from empty to non-empty while not paused,
the current mode and delay are snapshotted into `_previousState` and
the mode is forced to Paused; when already paused the whole throttle
config is left unchanged and no snapshot is taken. -/
theorem search_autopause_start (s : SearchState) (q : String)
    (hq0 : s.searchQuery = "") (hq : q ≠ "") :
    (s.cfg.paused = false →
      (handleSearchChange q s).cfg =
        { throttled := false, paused := true, delay := s.cfg.delay,
          prev := some { throttled := s.cfg.throttled, delay := s.cfg.delay } }) ∧
    (s.cfg.paused = true → (handleSearchChange q s).cfg = s.cfg) := by
  constructor <;> intro hp <;>
    · unfold handleSearchChange
      simp [hq0, hq, hp]

/-- C4 witness: starting a search from an empty query in the initial
(not paused) configuration snapshots Normal/250 and pauses. -/
theorem search_autopause_start_witness :
    (handleSearchChange "x" ⟨"", initialThrottleConfig⟩).cfg =
      { throttled := false, paused := true, delay := 250,
        prev := some { throttled := false, delay := 250 } } :=
  (search_autopause_start ⟨"", initialThrottleConfig⟩ "x" rfl (by decide)).1 rfl

/-- C5: ending a search when no auto-pause snapshot exists leaves the
throttle config unchanged (a total-function no-op, nothing to throw),
and ending a search twice in a row is the same as ending it once (the
second end is a complete no-op), so a restore never happens twice. -/
theorem search_end_idempotent (s t : SearchState) (h : s.cfg.prev = none) :
    (handleSearchChange "" s).cfg = s.cfg ∧
    handleSearchChange "" (handleSearchChange "" t) = handleSearchChange "" t := by
  refine ⟨handleSearchChange_end_no_snapshot s h, ?_⟩
  exact handleSearchChange_empty_id _ (handleSearchChange_query "" t)

/-- C5 witness: ending with no snapshot from a throttled state, and
double-ending from a paused-with-snapshot state. -/
theorem search_end_idempotent_witness :
    (handleSearchChange "" ⟨"q", ⟨true, false, 500, none⟩⟩).cfg =
      (⟨true, false, 500, none⟩ : ThrottleConfig) ∧
    handleSearchChange ""
        (handleSearchChange "" ⟨"q", ⟨false, true, 250, some ⟨true, 500⟩⟩⟩) =
      handleSearchChange "" ⟨"q", ⟨false, true, 250, some ⟨true, 500⟩⟩⟩ :=
  search_end_idempotent ⟨"q", ⟨true, false, 500, none⟩⟩
    ⟨"q", ⟨false, true, 250, some ⟨true, 500⟩⟩⟩ rfl

/-- C10: the manual toggle always writes a config without the
`_previousState` field, so any auto-pause snapshot is discarded; a
search end performed afterwards restores nothing and leaves the
toggle-produced config unchanged. -/
theorem toggle_clears_autopause_snapshot (c : ThrottleConfig) (q : String) :
    (toggleThrottling c).1.prev = none ∧
    (handleSearchChange "" ⟨q, (toggleThrottling c).1⟩).cfg = (toggleThrottling c).1 := by
  have hnone : (toggleThrottling c).1.prev = none := by
    unfold toggleThrottling
    split
    · rfl
    · split
      · rfl
      · split
        · rfl
        · split <;> rfl
  exact ⟨hnone, handleSearchChange_end_no_snapshot ⟨q, (toggleThrottling c).1⟩ hnone⟩

/-- C1 counterexample: the claim says a second attach with no new
captures in between replays nothing further, the buffer being drained
at most once under a one-shot drained flag.  On the code, the replay is
a pure function of the never-truncated, never-flagged buffer: after
attach and destroy, re-attaching the sink over the unchanged three-entry
buffer replays exactly the same non-empty emission sequence again. -/
theorem early_replay_second_attach_replays :
    (initScreenLog (destroy (initScreenLog
        ⟨false, preAttachConsole, none, none, bufThree⟩).1)).2 =
      (initScreenLog ⟨false, preAttachConsole, none, none, bufThree⟩).2 ∧
    (initScreenLog ⟨false, preAttachConsole, none, none, bufThree⟩).2 ≠ [] := by
  constructor
  · rfl
  · intro h
    simp [initScreenLog, destroy, replayLogsToScreenLogger, bufThree,
      jsSliceLast, isSeparatorLog] at h

/-- C1 as amended: attaching over a non-empty buffer of at most 200
non-separator entries replays exactly the start separator, the captured
entries in capture order, and the end separator; a second attach while
the sink is still initialized replays nothing (the init guard returns
early — there is no drained flag); and re-attaching after a destroy
replays the identical sequence again, because the buffer is neither
truncated nor marked drained. -/
theorem early_replay_per_attach (buf : List EarlyLog)
    (cons : ConsoleBindings) (tm : Option Nat)
    (hne : buf ≠ [])
    (hsep : ∀ e ∈ buf, isSeparatorLog e = false)
    (hlen : buf.length ≤ 200) :
    (initScreenLog ⟨false, cons, none, tm, buf⟩).2 =
      ⟨.log, [.str "---------- EARLY LOGS ----------"]⟩ ::
        buf.map (fun l => ⟨l.type, l.args⟩) ++
        [⟨.log, [.str "---------- END EARLY LOGS ----------"]⟩] ∧
    initScreenLog (initScreenLog ⟨false, cons, none, tm, buf⟩).1 =
      ((initScreenLog ⟨false, cons, none, tm, buf⟩).1, []) ∧
    (initScreenLog (destroy (initScreenLog ⟨false, cons, none, tm, buf⟩).1)).2 =
      (initScreenLog ⟨false, cons, none, tm, buf⟩).2 := by
  have hreplay : replayLogsToScreenLogger 200 buf =
      ⟨.log, [.str "---------- EARLY LOGS ----------"]⟩ ::
        buf.map (fun l => ⟨l.type, l.args⟩) ++
        [⟨.log, [.str "---------- END EARLY LOGS ----------"]⟩] := by
    unfold replayLogsToScreenLogger
    have hemp : buf.isEmpty = false := by
      cases buf with
      | nil => exact absurd rfl hne
      | cons a l => rfl
    rw [hemp]
    have hslice : jsSliceLast 200 buf = buf := by
      unfold jsSliceLast
      have : buf.length - 200 = 0 := Nat.sub_eq_zero_of_le hlen
      simp [this]
    rw [hslice]
    have hfilter : buf.filter (fun l => !(isSeparatorLog l)) = buf := by
      apply List.filter_eq_self.mpr
      intro a ha
      simp [hsep a ha]
    rw [hfilter]
    simp
  refine ⟨?_, ?_, ?_⟩
  · simp [initScreenLog, hreplay]
  · simp [initScreenLog]
  · simp [initScreenLog, destroy]

/-- C1 witness: the amended statement at the concrete three-entry
buffer. -/
theorem early_replay_per_attach_witness :
    (initScreenLog ⟨false, preAttachConsole, none, none, bufThree⟩).2 =
      ⟨.log, [.str "---------- EARLY LOGS ----------"]⟩ ::
        bufThree.map (fun l => ⟨l.type, l.args⟩) ++
        [⟨.log, [.str "---------- END EARLY LOGS ----------"]⟩] :=
  (early_replay_per_attach bufThree preAttachConsole none
    (by simp [bufThree]) (by decide) (by decide)).1

/-- C9: after attach then destroy, the four output channels are exactly
the functions saved into `_console` at attach time, which do not route
arguments through the throttle controller or the classifier, and the
pending throttle timeout is cleared.  While attached the channels do
route through the sink, so the restoration is observable. -/
theorem destroy_restores_console (s : SinkState)
    (h0 : s.initialized = false) (hc : s.console = preAttachConsole) :
    (initScreenLog s).1.savedConsole = some s.console ∧
    routesThroughSink (initScreenLog s).1.console.log = true ∧
    (destroy (initScreenLog s).1).console = s.console ∧
    routesThroughSink (destroy (initScreenLog s).1).console.log = false ∧
    routesThroughSink (destroy (initScreenLog s).1).console.info = false ∧
    routesThroughSink (destroy (initScreenLog s).1).console.warn = false ∧
    routesThroughSink (destroy (initScreenLog s).1).console.error = false ∧
    (destroy (initScreenLog s).1).throttleTimeout = none := by
  refine ⟨?_, ?_, ?_, ?_, ?_, ?_, ?_, ?_⟩ <;>
    simp [initScreenLog, destroy, h0, hc, decoratedConsole, preAttachConsole,
      routesThroughSink]

/-- C9 witness: attach then destroy from a fresh pre-attach state with a
pending timer handle. -/
theorem destroy_restores_console_witness :
    (destroy (initScreenLog ⟨false, preAttachConsole, none, some 7, []⟩).1).console =
      preAttachConsole ∧
    (destroy (initScreenLog ⟨false, preAttachConsole, none, some 7, []⟩).1).throttleTimeout =
      none :=
  ⟨(destroy_restores_console ⟨false, preAttachConsole, none, some 7, []⟩ rfl rfl).2.2.1,
   (destroy_restores_console ⟨false, preAttachConsole, none, some 7, []⟩ rfl rfl).2.2.2.2.2.2.2⟩

/-- C6: on the circular structured argument, the part_000 classifier
throws (the unguarded `JSON.stringify(arg, null, 2)` at line 183
propagates a TypeError through `genericLogger` and the public logging
API), while the dev-screen-logger variant of the same loop catches and
degrades to the fixed "[Circular]" placeholder as the claim states.
The part_000 behavior contradicts the claim, so the claim marks a code
bug in part_000. -/
theorem cyclic_arg_escapes_part000 :
    genericLoggerTokens000 [cyclicObject] =
      Except.error "TypeError: Converting circular structure to JSON" ∧
    genericLoggerTokensDev [cyclicObject] =
      [⟨.objPreview, "Object data"⟩, ⟨.objJson, "[Circular]"⟩] :=
  ⟨rfl, rfl⟩

/-- C7: classifying the first-argument text "[Auth] login userId 42"
yields exactly a module token "[Auth] ", an action token "login ", a
param token "userId " and a value token "42" in the number category
(the #5AAAFA spans). -/
theorem classify_common_log_line :
    formatLogString "[Auth] login userId 42" =
      [⟨.module, "[Auth] "⟩, ⟨.action, "login "⟩, ⟨TokKind.param, "userId "⟩,
       ⟨.numberTok, "42"⟩] ∧
    tokColor .numberTok = "#5AAAFA" :=
  ⟨by decide, rfl⟩

/-- C8: classifying the remainder text
"activePresetId: null, currentPatchName: Foo" yields exactly two
alternating property/value pairs, the value "null" in the null category
(#82AAFF) and the value "Foo" as a generic value (#FFC16C). -/
theorem classify_patch_property_list :
    formatRest "activePresetId: null, currentPatchName: Foo" =
      [⟨.property, "activePresetId: "⟩, ⟨.valueNull, "null"⟩, ⟨.sep, ", "⟩,
       ⟨.property, "currentPatchName: "⟩, ⟨.valueGeneric, "Foo"⟩] ∧
    tokColor .valueNull = "#82AAFF" ∧ tokColor .valueGeneric = "#FFC16C" :=
  ⟨rfl, rfl, rfl⟩

end ScreenLogger
